import Mathlib

/-!
Verification of the perma-capture web application's view handlers and test
infrastructure, shallowly embedded from `web/main/views.py`, `web/conftest.py`
and `web/fabfile.py`.
-/

namespace PermaCapture

/-! ## Data model

Application users, from `main/models.py` as described by the spec's data model:
identity fields plus `is_active` and `email_confirmed` flags. -/

structure User where
  email : String
  firstName : String
  lastName : String
  emailConfirmed : Bool
  isActive : Bool
deriving DecidableEq, Repr

/-- The outbound emails the password-reset flow can produce. -/
inductive Email where
  | confirmation (addr : String)
  | passwordReset (addr : String)
deriving DecidableEq, Repr

/-- HTTP responses produced by the password-reset view: a redirect or a
rendered template. -/
inductive Response where
  | redirect (url : String)
  | page (template : String)
deriving DecidableEq, Repr

inductive Method where
  | get
  | post
deriving DecidableEq, Repr

/-- Django's `PasswordResetView.success_url` (`reverse('password_reset_done')`). -/
def passwordResetSuccessUrl : String := "/password-reset/done/"

/-- Lookup of `User.objects.get(email=...)` with `DoesNotExist` mapped to
`none`, as in the `try`/`except` of `reset_password` (`views.py`). -/
def getUserByEmail (db : List User) (email : String) : Option User :=
  db.find? (fun u => u.email = email)

/-- Modelled from the spec: Django's `PasswordResetView` POST handling with the
repo's `PasswordResetForm` (`main/forms.py`, which is not under `src/`).
Per the spec, every POST produces the same success page (a redirect to the
done page), and internally a password-reset email is sent to a matching
active account, while deactivated and nonexistent addresses receive nothing,
silently. -/
def passwordResetViewPost (db : List User) (email : String) : Response × List Email :=
  match getUserByEmail db email with
  | some u =>
    if u.isActive then
      (Response.redirect passwordResetSuccessUrl, [Email.passwordReset email])
    else
      (Response.redirect passwordResetSuccessUrl, [])
  | none => (Response.redirect passwordResetSuccessUrl, [])

/-- Modelled from the spec: for a GET, Django's `PasswordResetView` renders the
reset form and sends nothing. -/
def passwordResetViewGet : Response × List Email :=
  (Response.page "registration/password_reset_form.html", [])

/-- The `reset_password` view (`views.py`): on POST it looks the user up by
the posted email; a found-but-unconfirmed user is sent a confirmation email
and the view short-circuits to a redirect to the success page; in every other
case the request is delegated to `OurPasswordResetView` (a subclass of
Django's `PasswordResetView` that only enriches the email template context). -/
def reset_password (db : List User) (method : Method) (postedEmail : String) :
    Response × List Email :=
  match method with
  | Method.post =>
    match getUserByEmail db postedEmail with
    | some target_user =>
      if !target_user.emailConfirmed then
        (Response.redirect passwordResetSuccessUrl, [Email.confirmation target_user.email])
      else
        passwordResetViewPost db postedEmail
    | none => passwordResetViewPost db postedEmail
  | Method.get => passwordResetViewGet

/-- A single-user database holding one account for `e` in the given
confirmation/activation state. -/
def oneUserDb (e f l : String) (confirmed active : Bool) : List User :=
  [⟨e, f, l, confirmed, active⟩]

/-! ## API tokens -/

/-- A user as seen by the token-reset flow: an id and the key of the
one-to-one API token currently associated with the user. -/
structure TokenUser where
  id : Nat
  tokenKey : String
deriving DecidableEq, Repr

/-- Modelled from the spec: `User.get_new_token` (`main/models.py`, which is
not under `src/`): invalidates the user's existing API token, issues a fresh
one and returns it. The randomly generated fresh key is passed explicitly. -/
def get_new_token (u : TokenUser) (freshKey : String) : TokenUser × String :=
  ({ u with tokenKey := freshKey }, freshKey)

/-- The JSON response of the token-reset endpoint. -/
structure TokenApiResponse where
  status : Nat
  token : Option String
deriving DecidableEq, Repr

/-- The body of the `reset_token` view (`views.py`): calls
`request.user.get_new_token()` and returns `{'token': token.key}`. -/
def reset_token (u : TokenUser) (freshKey : String) : TokenUser × TokenApiResponse :=
  let r := get_new_token u freshKey
  (r.1, { status := 200, token := some r.2 })

/-- Modelled from the spec: REST framework's dispatch around the decorated
`reset_token` view (`@api_view(['POST'])` plus the documented permissions,
`views.py` lines 170-174): 401 when unauthenticated, 405 when the method is
not POST, otherwise the view body runs and returns 200. Authentication is
checked before the method, as in the framework's dispatch. -/
def resetTokenEndpoint (auth : Option TokenUser) (method : Method) (freshKey : String) :
    Option TokenUser × TokenApiResponse :=
  match auth with
  | none => (auth, { status := 401, token := none })
  | some u =>
    match method with
    | Method.get => (auth, { status := 405, token := none })
    | Method.post =>
      let r := reset_token u freshKey
      (some r.1, r.2)

/-! ## One active token per user

Modelled from the spec: the token table is one-to-one with users; a token row
is created when the user is created, and `get_new_token` deletes the old row
and inserts the fresh one in a single step, so the caller never observes an
intermediate state. Reachable states are those produced by running a list of
operations from the empty state. -/

structure TokenState where
  users : List Nat
  tokens : List (Nat × String)
deriving DecidableEq, Repr

inductive TokenOp where
  | signUp (uid : Nat) (key : String)
  | resetToken (uid : Nat) (key : String)
deriving DecidableEq, Repr

def applyTokenOp (s : TokenState) (op : TokenOp) : TokenState :=
  match op with
  | TokenOp.signUp uid key =>
    if uid ∈ s.users then s
    else { users := uid :: s.users, tokens := (uid, key) :: s.tokens }
  | TokenOp.resetToken uid key =>
    if uid ∈ s.users then
      { s with tokens := (uid, key) :: s.tokens.filter (fun t => t.1 ≠ uid) }
    else s

def initialTokenState : TokenState := ⟨[], []⟩

def runTokenOps (ops : List TokenOp) : TokenState :=
  ops.foldl applyTokenOp initialTokenState

/-- Number of token rows held by user `uid`. -/
def activeTokenCount (s : TokenState) (uid : Nat) : Nat :=
  (s.tokens.filter (fun t => t.1 = uid)).length

/-- The per-user token invariant: registered users hold exactly one token,
unregistered ids hold none. -/
def TokenInv (s : TokenState) : Prop :=
  ∀ uid, activeTokenCount s uid = if uid ∈ s.users then 1 else 0

/-! ## Session-aware test client -/

/-- Errors a request can surface: an application-level exception raised inside
the underlying request, or Python's `KeyError` from `dict.pop`. -/
inductive RequestError where
  | appError (msg : String)
  | keyError
deriving DecidableEq, Repr

/-- The mutable state of the test client: its cookie jar (`self.cookies`, a
name-keyed dictionary). -/
structure ClientState where
  cookies : List (String × String)
deriving DecidableEq, Repr

def getCookie : List (String × String) → String → Option String
  | [], _ => none
  | p :: rest, k => if p.1 = k then some p.2 else getCookie rest k

def setCookie : List (String × String) → String → String → List (String × String)
  | [], k, v => [(k, v)]
  | p :: rest, k, v => if p.1 = k then (p.1, v) :: rest else p :: setCookie rest k v

/-- Removal done by `self.cookies.pop(session_key)` when the key is present. -/
def popCookie (cs : List (String × String)) (k : String) : List (String × String) :=
  cs.filter (fun p => p.1 ≠ k)

/-- Modelled from the spec: Django's `Client.force_login` establishes an
authenticated session for the given identity and stores the fresh session's
token in the client's session cookie. -/
def force_login (sessionKey sessionToken : String) (st : ClientState) : ClientState :=
  ⟨setCookie st.cookies sessionKey sessionToken⟩

/-- The `UserClient.request` override (`conftest.py`): with an `as_user`
argument it saves the current value of the session cookie, calls
`force_login`, performs the underlying request, and in a `finally` block
restores the saved cookie — or pops it when none was saved (`dict.pop`
raises `KeyError`, superseding the pending result, if the cookie is absent
at that point). Without `as_user` the request is passed through unchanged. -/
def userClientRequest {ρ : Type} (sessionKey sessionToken : String)
    (inner : ClientState → Except RequestError ρ × ClientState)
    (asUser : Option Nat) (st : ClientState) :
    Except RequestError ρ × ClientState :=
  match asUser with
  | none => inner st
  | some _ =>
    let previous_session := getCookie st.cookies sessionKey
    let r := inner (force_login sessionKey sessionToken st)
    match previous_session with
    | some v => (r.1, ⟨setCookie r.2.cookies sessionKey v⟩)
    | none =>
      if (getCookie r.2.cookies sessionKey).isSome then
        (r.1, ⟨popCookie r.2.cookies sessionKey⟩)
      else
        (Except.error RequestError.keyError, r.2)

/-- An underlying request that always raises, leaving the jar unchanged. -/
def alwaysRaises : ClientState → Except RequestError Nat × ClientState :=
  fun s => (Except.error (RequestError.appError "boom"), s)

/-! ## Sign-up and account-edit forms -/

/-- The fields both profile forms carry (`SignupForm` and `UserForm` ask for
email, first name and last name). -/
structure ProfileFields where
  email : String
  firstName : String
  lastName : String
deriving DecidableEq, Repr

/-- Modelled from the spec: validity of `SignupForm` (`main/forms.py`, which is
not under `src/`): the submitted email and names must be present and the
address must not already belong to an account. -/
def signupFormIsValid (db : List User) (d : ProfileFields) : Bool :=
  d.email ≠ "" && d.firstName ≠ "" && d.lastName ≠ ""
    && db.all (fun u => u.email ≠ d.email)

/-- Modelled from the spec: `SignupForm.save` creates an inactive, unconfirmed
user from the submitted fields. -/
def signupFormSave (db : List User) (d : ProfileFields) : List User :=
  db ++ [⟨d.email, d.firstName, d.lastName, false, false⟩]

inductive SignupResponse where
  | success
  | formPage (bound : ProfileFields)
deriving DecidableEq, Repr

/-- The `sign_up` view (`views.py`): bind the form; on a valid POST call
`form.save()` and render the success page; otherwise re-render the sign-up
form. -/
def sign_up (db : List User) (method : Method) (d : ProfileFields) :
    List User × SignupResponse :=
  match method with
  | Method.post =>
    if signupFormIsValid db d then
      (signupFormSave db d, SignupResponse.success)
    else
      (db, SignupResponse.formPage d)
  | Method.get => (db, SignupResponse.formPage d)

/-- Modelled from the spec: validity of `UserForm` bound to the logged-in user
(index `i` of the database): fields present and the address not taken by
another account. -/
def userFormIsValid (db : List User) (i : Nat) (d : ProfileFields) : Bool :=
  d.email ≠ "" && d.firstName ≠ "" && d.lastName ≠ ""
    && (db.eraseIdx i).all (fun u => u.email ≠ d.email)

/-- Modelled from the spec: `UserForm.save` persists the submitted fields onto
the bound user. -/
def userFormSave (db : List User) (i : Nat) (d : ProfileFields) : List User :=
  match db[i]? with
  | some u => db.set i
      { u with email := d.email, firstName := d.firstName, lastName := d.lastName }
  | none => db

inductive AccountResponse where
  | formPage (bound : ProfileFields)
deriving DecidableEq, Repr

/-- The `account` view (`views.py`): bind the form to the logged-in user; on a
valid POST call `form.save()`; in every case render the account page with the
form. -/
def account (db : List User) (i : Nat) (method : Method) (d : ProfileFields) :
    List User × AccountResponse :=
  match method with
  | Method.post =>
    if userFormIsValid db i d then (userFormSave db i d, AccountResponse.formPage d)
    else (db, AccountResponse.formPage d)
  | Method.get => (db, AccountResponse.formPage d)

/-! ## Outbound HTTP mock -/

/-- The bytes of `b'Some file'`, the canned stream body behind
`MockResponse.iter_content`. -/
def someFileBytes : List Nat := "Some file".toList.map Char.toNat

/-- The chunking loop of `MockResponse.iter_content` (`conftest.py`):
repeatedly read `chunkSize` bytes from the stream and yield each chunk,
stopping when a read returns nothing (as `read(0)` immediately does). -/
def readChunks (data : List Nat) (chunkSize : Nat) : List (List Nat) :=
  if hc : chunkSize = 0 then []
  else if hd : data = [] then []
  else data.take chunkSize :: readChunks (data.drop chunkSize) chunkSize
termination_by data.length
decreasing_by
  have h1 : 0 < data.length := List.length_pos.mpr hd
  simp only [List.length_drop]
  omega

/-- The canned response class `MockResponse` (`conftest.py`). -/
inductive MockResponse where
  | mk
deriving DecidableEq, Repr

def MockResponse.json (_ : MockResponse) : List (String × String) :=
  [("mock_key", "mock_response")]

def MockResponse.status_code (_ : MockResponse) : Nat := 200

def MockResponse.iter_content (_ : MockResponse) (chunkSize : Nat) : List (List Nat) :=
  readChunks someFileBytes chunkSize

/-- The stub the `mock_response` fixture installs over the library's HTTP verb
functions: any call, whatever its positional and keyword arguments, returns a
fresh `MockResponse`. -/
def mock_http_call (args : List String) (kwargs : List (String × String)) :
    MockResponse :=
  MockResponse.mk

/-- After the autouse `mock_response` fixture has run, `requests.get` is the
stub. -/
def requests_get := mock_http_call

/-- After the autouse `mock_response` fixture has run, `requests.post` is the
stub. -/
def requests_post := mock_http_call

/-- After the autouse `mock_response` fixture has run, `requests.patch` is the
stub. -/
def requests_patch := mock_http_call

/-- After the autouse `mock_response` fixture has run, `requests.delete` is
the stub. -/
def requests_delete := mock_http_call

/-! ## Query-counting assertion -/

/-- One frame of a captured Python stack: filename, line number and the first
line of code context. -/
structure StackFrame where
  filename : String
  lineno : Nat
  codeContext : String
deriving DecidableEq, Repr

/-- One entry of `context.captured_queries`: the SQL text plus the stack
information stored by `TracingDebugWrapper.capture_stack`. -/
structure CapturedQuery where
  sql : String
  stack : List StackFrame
  userlandFrame : Option StackFrame
deriving DecidableEq, Repr

/-- Classification of a statement by its leading keyword, lower-cased: the
`q['sql'].split(" ", 1)[0].lower()` of `_assert_num_queries`. -/
def queryType (sql : String) : String :=
  ((sql.splitOn " ").headD sql).toLower

/-- The transactional/introspection statement types the assertion ignores. -/
def excludedTypes : List String := ["savepoint", "release", "set", "show"]

/-- Effect of `query_counts[query_type] += 1` on a `defaultdict(int)`: an
existing key is bumped in place, a new key is appended with count 1. -/
def bump (counts : List (String × Nat)) (k : String) : List (String × Nat) :=
  match counts with
  | [] => [(k, 1)]
  | p :: rest => if p.1 = k then (p.1, p.2 + 1) :: rest else p :: bump rest k

/-- The body of the counting loop over `context.captured_queries`. -/
def countStep (acc : List (String × Nat)) (q : CapturedQuery) : List (String × Nat) :=
  let t := queryType q.sql
  if t ∈ excludedTypes then acc else bump acc t

/-- The histogram built by `_assert_num_queries`. -/
def queryCounts (qs : List CapturedQuery) : List (String × Nat) :=
  qs.foldl countStep []

/-- Dictionary lookup (first entry whose key matches). -/
def dlookup : List (String × Nat) → String → Option Nat
  | [], _ => none
  | p :: rest, k => if p.1 = k then some p.2 else dlookup rest k

/-- Python dict equality: each dict holds the same keys with the same
values. -/
def dictEq (d1 d2 : List (String × Nat)) : Bool :=
  d1.all (fun p => dlookup d2 p.1 == some p.2)
    && d2.all (fun p => dlookup d1 p.1 == some p.2)

/-- The single-quote character, written by code point to keep it out of
literals. -/
def quoteChar : Char := Char.ofNat 39

def quoteStr : String := String.singleton quoteChar

/-- Python repr of a string-keyed count dict, as `%s`-formatting renders
`expected_counts` and `dict(query_counts)`. -/
def reprDict (d : List (String × Nat)) : String :=
  "\x7b" ++ String.intercalate ", "
      (d.map (fun p => quoteStr ++ p.1 ++ quoteStr ++ ": " ++ toString p.2))
    ++ "\x7d"

/-- Python `str.rstrip()`: drop trailing whitespace. -/
def rstrip (s : String) : String :=
  String.mk (s.toList.reverse.dropWhile Char.isWhitespace).reverse

/-- Reassembly of the quote-split segments of a SQL string with every complete
quoted literal replaced by the `<str>` placeholder: the effect of the
`re.sub` call that builds `short_sql` (non-greedy match from each opening
quote to the next quote, an unpaired trailing quote left as is). -/
def joinShortSegments : List String → String
  | [] => ""
  | [s] => s
  | [s, t] => s ++ quoteStr ++ t
  | s :: _ :: rest => s ++ quoteStr ++ "<str>" ++ quoteStr ++ joinShortSegments rest

def shortSql (sql : String) : String :=
  joinShortSegments (sql.splitOn quoteStr)

/-- Rendering of one stack frame in the verbose diagnostic. -/
def frameText (f : StackFrame) : String :=
  f.filename ++ ":" ++ toString f.lineno ++ ":\n" ++ rstrip f.codeContext ++ "\n"

/-- Rendering of one captured query in the verbose diagnostic: its frames
(full stack at verbosity above one, else the userland frame when present)
followed by the shortened SQL. -/
def queryText (verbose : Nat) (q : CapturedQuery) : String :=
  let frames :=
    if verbose > 1 then q.stack
    else
      match q.userlandFrame with
      | some f => [f]
      | none => []
  String.join (frames.map frameText) ++ shortSql q.sql ++ "\n\n"

/-- The failure message of `_assert_num_queries`: expected and actual counts,
followed by the per-query listing when `-v` was given, else a hint. -/
def mismatchMsg (verbose : Nat) (expected actual : List (String × Nat))
    (queries : List CapturedQuery) : String :=
  let base := "Unexpected queries: expected " ++ reprDict expected ++ ", got "
    ++ reprDict actual
  if verbose > 0 then
    base ++ "\n\nQueries:\n========\n\n"
      ++ String.join (queries.map (queryText verbose))
  else
    base ++ " (add -v option to show queries, or -v -v to show queries with full stack trace)"

inductive AssertResult where
  | pass
  | fail (msg : String)
deriving DecidableEq, Repr

/-- The comparison at the end of `_assert_num_queries`: recount the captured
statements, pass when the histogram equals the expected mapping, otherwise
fail with the diagnostic message. -/
def assertNumQueries (verbose : Nat) (expected : List (String × Nat))
    (captured : List CapturedQuery) : AssertResult :=
  let counts := queryCounts captured
  if dictEq expected counts then AssertResult.pass
  else AssertResult.fail (mismatchMsg verbose expected counts captured)

/-- The number of captured statements whose lower-cased leading keyword is `k`,
for the non-excluded keywords. -/
def countOfType (captured : List CapturedQuery) (k : String) : Nat :=
  captured.countP (fun q =>
    decide (queryType q.sql = k) && !decide (queryType q.sql ∈ excludedTypes))

/-! ## Password-reset response and email behavior -/

theorem reset_password_post_response (db : List User) (e : String) :
    (reset_password db Method.post e).1 = Response.redirect passwordResetSuccessUrl := by
  unfold reset_password passwordResetViewPost
  cases h : getUserByEmail db e with
  | none => simp [h]
  | some u =>
    by_cases hc : u.emailConfirmed <;> by_cases ha : u.isActive <;> simp [h, hc, ha]

/-- C1: for every POST to the password-reset endpoint, the HTTP response is
byte-identical across all four email-address states (existing-confirmed,
existing-unconfirmed, deactivated, nonexistent): indeed it is the same
response for any two databases and posted addresses. -/
theorem c1_reset_password_response_uniform (e f l : String)
    (db db' : List User) (e' : String) :
    (reset_password db Method.post e).1 = (reset_password db' Method.post e').1
    ∧ (reset_password (oneUserDb e f l true true) Method.post e).1
        = (reset_password (oneUserDb e f l false true) Method.post e).1
    ∧ (reset_password (oneUserDb e f l false true) Method.post e).1
        = (reset_password (oneUserDb e f l true false) Method.post e).1
    ∧ (reset_password (oneUserDb e f l true false) Method.post e).1
        = (reset_password ([] : List User) Method.post e).1 := by
  refine ⟨?_, ?_, ?_, ?_⟩ <;>
    simp [reset_password_post_response]

/-- C2 counterexample: the claim says a deactivated user's address receives no
email, but posting the address of a deactivated unconfirmed user makes the
view send a confirmation email (`views.py` checks `email_confirmed` without
checking `is_active`). -/
theorem c2_counterexample :
    (reset_password (oneUserDb "a@example.com" "A" "B" false false)
        Method.post "a@example.com").2 = [Email.confirmation "a@example.com"]
    ∧ (reset_password (oneUserDb "a@example.com" "A" "B" false false)
        Method.post "a@example.com").2 ≠ [] := by
  constructor <;> decide

/-- C2 amended: posting a confirmed active user's address sends exactly one
password-reset email; an unconfirmed user's address (whether the account is
active or not) sends exactly one confirmation email and no password-reset
email; a deactivated confirmed user's address, or an address belonging to no
user, sends nothing. -/
theorem c2_amended_reset_password_emails (e f l : String) (a : Bool) :
    (reset_password (oneUserDb e f l true true) Method.post e).2 = [Email.passwordReset e]
    ∧ (reset_password (oneUserDb e f l false a) Method.post e).2 = [Email.confirmation e]
    ∧ (reset_password (oneUserDb e f l true false) Method.post e).2 = []
    ∧ (reset_password ([] : List User) Method.post e).2 = [] := by
  refine ⟨?_, ?_, ?_, ?_⟩ <;>
    simp [reset_password, oneUserDb, getUserByEmail, passwordResetViewPost, List.find?]

/-! ## Token-reset behavior -/

/-- C3: the token in the JSON response differs from the token held before the
call (given that the freshly generated key is new) and equals the token
persisted for the user after the call. -/
theorem c3_reset_token_fresh (u : TokenUser) (freshKey : String)
    (h : freshKey ≠ u.tokenKey) :
    (reset_token u freshKey).2.token ≠ some u.tokenKey
    ∧ (reset_token u freshKey).2.token = some (reset_token u freshKey).1.tokenKey := by
  simp [reset_token, get_new_token, h]

theorem c3_reset_token_fresh_witness :
    (("k2" : String) ≠ "k1")
    ∧ ((reset_token ⟨1, "k1"⟩ "k2").2.token ≠ some (("k1" : String))
       ∧ (reset_token ⟨1, "k1"⟩ "k2").2.token
          = some (reset_token ⟨1, "k1"⟩ "k2").1.tokenKey) :=
  ⟨by decide, c3_reset_token_fresh ⟨1, "k1"⟩ "k2" (by decide)⟩

/-- C8: an authenticated POST to the token-reset endpoint returns 200 with a
JSON body whose token field holds the new key; an unauthenticated request
returns 401; an (authenticated) GET returns 405. -/
theorem c8_reset_token_endpoint_statuses (u : TokenUser) (k : String) (m : Method) :
    (resetTokenEndpoint (some u) Method.post k).2 = { status := 200, token := some k }
    ∧ (resetTokenEndpoint none m k).2.status = 401
    ∧ (resetTokenEndpoint (some u) Method.get k).2.status = 405 := by
  refine ⟨rfl, ?_, rfl⟩
  cases m <;> rfl

/-! ## One token per user at every reachable state -/

lemma activeTokenCount_countP (s : TokenState) (uid : Nat) :
    activeTokenCount s uid = s.tokens.countP (fun t => t.1 = uid) := by
  simp [activeTokenCount, List.countP_eq_length_filter]

lemma tokenInv_apply (s : TokenState) (op : TokenOp) (h : TokenInv s) :
    TokenInv (applyTokenOp s op) := by
  cases op with
  | signUp uid key =>
    by_cases hmem : uid ∈ s.users
    · simpa [applyTokenOp, hmem] using h
    · intro v
      have h0 := h v
      rw [activeTokenCount_countP] at h0 ⊢
      by_cases hv : v = uid
      · subst hv
        simp [hmem] at h0
        simp [applyTokenOp, hmem, List.countP_cons]
        simpa using h0
      · simp [applyTokenOp, hmem, List.countP_cons, Ne.symm hv, hv, h0]
  | resetToken uid key =>
    by_cases hmem : uid ∈ s.users
    · intro v
      have h0 := h v
      rw [activeTokenCount_countP] at h0 ⊢
      by_cases hv : v = uid
      · subst hv
        have hz : s.tokens.countP
            (fun a => decide (a.1 = v) && decide (a.1 ≠ v)) = 0 := by
          rw [List.countP_eq_zero]
          intro a _
          simp
        simp [applyTokenOp, hmem, List.countP_cons, List.countP_filter, hz]
      · have hc : s.tokens.countP (fun a => decide (a.1 = v) && !decide (a.1 = uid))
            = s.tokens.countP (fun t => t.1 = v) := by
          apply List.countP_congr
          intro a _
          constructor
          · intro hb
            simp at hb
            simp [hb.1]
          · intro hb
            simp at hb
            simp [hb, hv]
        simp [applyTokenOp, hmem, List.countP_cons, List.countP_filter,
          Ne.symm hv, hc, h0]
    · simpa [applyTokenOp, hmem] using h

lemma tokenInv_foldl (ops : List TokenOp) (s : TokenState) (h : TokenInv s) :
    TokenInv (ops.foldl applyTokenOp s) := by
  induction ops generalizing s with
  | nil => simpa using h
  | cons op rest ih => exact ih _ (tokenInv_apply s op h)

/-- C4: at every reachable state (any sequence of sign-up and token-reset
operations run from the empty state) each registered user holds exactly one
active token and unregistered ids hold none; each token reset is a single
step, so callers never observe a state with zero or two tokens for a user. -/
theorem c4_one_active_token_per_user (ops : List TokenOp) (uid : Nat) :
    activeTokenCount (runTokenOps ops) uid
      = if uid ∈ (runTokenOps ops).users then 1 else 0 := by
  have hinit : TokenInv initialTokenState := by
    intro v
    simp [initialTokenState, activeTokenCount]
  exact tokenInv_foldl ops initialTokenState hinit uid

/-! ## Session-cookie restoration -/

lemma getCookie_setCookie_self (cs : List (String × String)) (k v : String) :
    getCookie (setCookie cs k v) k = some v := by
  induction cs with
  | nil => simp [setCookie, getCookie]
  | cons p rest ih =>
    by_cases h : p.1 = k <;> simp [setCookie, getCookie, h, ih]

lemma getCookie_popCookie_self (cs : List (String × String)) (k : String) :
    getCookie (popCookie cs k) k = none := by
  induction cs with
  | nil => rfl
  | cons p rest ih =>
    by_cases h : p.1 = k <;> simp [popCookie, List.filter, getCookie, h] at ih ⊢ <;>
      simpa [popCookie] using ih

/-- C6: after any impersonated call (`as_user` supplied), whatever the
underlying request did to the cookie jar, the client's session cookie equals
its value before the call: restored when one existed, absent when none did. -/
theorem c6_session_cookie_restored {ρ : Type} (sessionKey sessionToken : String)
    (inner : ClientState → Except RequestError ρ × ClientState)
    (u : Nat) (st : ClientState) :
    getCookie (userClientRequest sessionKey sessionToken inner (some u) st).2.cookies
        sessionKey
      = getCookie st.cookies sessionKey := by
  unfold userClientRequest
  cases hp : getCookie st.cookies sessionKey with
  | some v => simp [hp, getCookie_setCookie_self]
  | none =>
    cases hq : getCookie (inner (force_login sessionKey sessionToken st)).2.cookies
        sessionKey with
    | some w => simp [hp, hq, getCookie_popCookie_self]
    | none => simp [hp, hq]

/-- C10: when the underlying request raises, the session cookie is still
restored before the exception reaches the caller: the call's result is an
error, and the cookie jar's session entry equals its value before the call. -/
theorem c10_session_cookie_restored_on_error {ρ : Type}
    (sessionKey sessionToken : String)
    (inner : ClientState → Except RequestError ρ × ClientState)
    (u : Nat) (st : ClientState) (e : RequestError)
    (h : (inner (force_login sessionKey sessionToken st)).1 = Except.error e) :
    (∃ e2, (userClientRequest sessionKey sessionToken inner (some u) st).1
        = Except.error e2)
    ∧ getCookie (userClientRequest sessionKey sessionToken inner (some u) st).2.cookies
        sessionKey
      = getCookie st.cookies sessionKey := by
  refine ⟨?_, c6_session_cookie_restored sessionKey sessionToken inner u st⟩
  unfold userClientRequest
  cases hp : getCookie st.cookies sessionKey with
  | some v => exact ⟨e, by simp [hp, h]⟩
  | none =>
    by_cases hq : (getCookie (inner (force_login sessionKey sessionToken st)).2.cookies
        sessionKey).isSome
    · exact ⟨e, by simp [hp, hq, h]⟩
    · exact ⟨RequestError.keyError, by simp [hp, hq]⟩

theorem c10_session_cookie_restored_on_error_witness :
    ((alwaysRaises (force_login "sessionid" "tok" ⟨[]⟩)).1
        = Except.error (RequestError.appError "boom"))
    ∧ ((∃ e2, (userClientRequest "sessionid" "tok" alwaysRaises (some 0) ⟨[]⟩).1
          = Except.error e2)
       ∧ getCookie (userClientRequest "sessionid" "tok" alwaysRaises
            (some 0) (⟨[]⟩ : ClientState)).2.cookies "sessionid"
         = getCookie (⟨[]⟩ : ClientState).cookies "sessionid") :=
  ⟨rfl, c10_session_cookie_restored_on_error "sessionid" "tok" alwaysRaises 0 ⟨[]⟩
    (RequestError.appError "boom") rfl⟩

/-! ## Validation failures persist nothing -/

/-- C7: a POST whose form data fails validation leaves the database unchanged
(no record created or modified) and re-renders the form, both for the sign-up
view and for the account-edit view. -/
theorem c7_invalid_form_no_persistence (db : List User) (i : Nat) (d : ProfileFields)
    (hs : signupFormIsValid db d = false) (ha : userFormIsValid db i d = false) :
    sign_up db Method.post d = (db, SignupResponse.formPage d)
    ∧ account db i Method.post d = (db, AccountResponse.formPage d) := by
  simp [sign_up, account, hs, ha]

theorem c7_invalid_form_no_persistence_witness :
    (signupFormIsValid [] ⟨"", "F", "L"⟩ = false)
    ∧ (userFormIsValid [] 0 ⟨"", "F", "L"⟩ = false)
    ∧ (sign_up [] Method.post ⟨"", "F", "L"⟩
          = ([], SignupResponse.formPage ⟨"", "F", "L"⟩)
       ∧ account [] 0 Method.post ⟨"", "F", "L"⟩
          = ([], AccountResponse.formPage ⟨"", "F", "L"⟩)) :=
  ⟨by decide, by decide,
    c7_invalid_form_no_persistence [] 0 ⟨"", "F", "L"⟩ (by decide) (by decide)⟩

/-! ## Mock HTTP responses -/

lemma readChunks_flatten (c : Nat) (hc : 0 < c) (data : List Nat) :
    (readChunks data c).flatten = data := by
  generalize hn : data.length = n
  induction n using Nat.strong_induction_on generalizing data with
  | _ n ih =>
    rw [readChunks]
    have hc0 : ¬c = 0 := by omega
    by_cases hd : data = []
    · simp [hc0, hd]
    · have hlt : (data.drop c).length < n := by
        subst hn
        have hpos : 0 < data.length := List.length_pos.mpr hd
        simp only [List.length_drop]
        omega
      have hrec := ih (data.drop c).length hlt (data.drop c) rfl
      simp [hc0, hd, hrec, List.take_append_drop]

/-- C9: every call to a patched HTTP verb function, regardless of arguments,
returns the stub response, which carries status code 200, the fixed JSON
body, and a byte stream whose chunks reassemble to `b'Some file'`. -/
theorem c9_mock_http (args : List String) (kwargs : List (String × String))
    (c : Nat) (hc : 0 < c) :
    requests_get args kwargs = MockResponse.mk
    ∧ requests_post args kwargs = MockResponse.mk
    ∧ requests_patch args kwargs = MockResponse.mk
    ∧ requests_delete args kwargs = MockResponse.mk
    ∧ (requests_get args kwargs).status_code = 200
    ∧ (requests_get args kwargs).json = [("mock_key", "mock_response")]
    ∧ ((requests_get args kwargs).iter_content c).flatten = someFileBytes := by
  refine ⟨rfl, rfl, rfl, rfl, rfl, rfl, ?_⟩
  exact readChunks_flatten c hc someFileBytes

theorem c9_mock_http_witness :
    (0 < 1)
    ∧ (requests_get [] [] = MockResponse.mk
       ∧ requests_post [] [] = MockResponse.mk
       ∧ requests_patch [] [] = MockResponse.mk
       ∧ requests_delete [] [] = MockResponse.mk
       ∧ (requests_get [] []).status_code = 200
       ∧ (requests_get [] []).json = [("mock_key", "mock_response")]
       ∧ ((requests_get [] []).iter_content 1).flatten = someFileBytes) :=
  ⟨by decide, c9_mock_http [] [] 1 (by decide)⟩

/-! ## Query-count assertion correctness -/

lemma dlookup_bump_self (d : List (String × Nat)) (k : String) :
    dlookup (bump d k) k = some ((dlookup d k).getD 0 + 1) := by
  induction d with
  | nil => simp [bump, dlookup]
  | cons p rest ih =>
    by_cases h : p.1 = k <;> simp [bump, dlookup, h, ih]

lemma dlookup_bump_other (d : List (String × Nat)) (k k' : String) (h : k' ≠ k) :
    dlookup (bump d k) k' = dlookup d k' := by
  induction d with
  | nil => simp [bump, dlookup, Ne.symm h]
  | cons p rest ih =>
    by_cases hp : p.1 = k
    · simp [bump, dlookup, hp, Ne.symm h]
    · simp [bump, dlookup, hp, ih]

lemma dlookup_foldl_countStep (qs : List CapturedQuery) (acc : List (String × Nat))
    (k : String) :
    dlookup (qs.foldl countStep acc) k
      = if countOfType qs k = 0 then dlookup acc k
        else some ((dlookup acc k).getD 0 + countOfType qs k) := by
  induction qs generalizing acc with
  | nil => simp [countOfType]
  | cons q rest ih =>
    rw [List.foldl_cons, ih]
    by_cases hex : queryType q.sql ∈ excludedTypes
    · have hstep : countStep acc q = acc := by simp [countStep, hex]
      have hcnt : countOfType (q :: rest) k = countOfType rest k := by
        simp [countOfType, List.countP_cons, hex]
      rw [hstep, hcnt]
    · by_cases hk : queryType q.sql = k
      · have hkex : k ∉ excludedTypes := hk ▸ hex
        have hstep : countStep acc q = bump acc k := by
          simp [countStep, hex, hk, hkex]
        have hcnt : countOfType (q :: rest) k = countOfType rest k + 1 := by
          simp [countOfType, List.countP_cons, hex, hk, hkex]
        rw [hstep, hcnt]
        by_cases hz : countOfType rest k = 0
        · simp [hz, dlookup_bump_self]
        · simp only [hz, if_false, dlookup_bump_self, Option.getD_some,
            Nat.add_eq_zero, and_false, false_and, Option.some.injEq]
          omega
      · have hstep : countStep acc q = bump acc (queryType q.sql) := by
          simp [countStep, hex]
        have hcnt : countOfType (q :: rest) k = countOfType rest k := by
          simp [countOfType, List.countP_cons, hex, hk]
        rw [hstep, hcnt, dlookup_bump_other acc (queryType q.sql) k (Ne.symm hk)]

lemma dlookup_queryCounts (qs : List CapturedQuery) (k : String) :
    dlookup (queryCounts qs) k
      = if countOfType qs k = 0 then none else some (countOfType qs k) := by
  rw [queryCounts, dlookup_foldl_countStep]
  simp [dlookup]

lemma bump_keys (d : List (String × Nat)) (k : String) :
    (bump d k).map Prod.fst
      = if k ∈ d.map Prod.fst then d.map Prod.fst else d.map Prod.fst ++ [k] := by
  induction d with
  | nil => simp [bump]
  | cons p rest ih =>
    by_cases h : p.1 = k
    · simp [bump, h]
    · by_cases hm : k ∈ rest.map Prod.fst <;>
        simp [bump, h, ih, hm, Ne.symm h]

lemma nodup_bump_keys (d : List (String × Nat)) (k : String)
    (h : (d.map Prod.fst).Nodup) : ((bump d k).map Prod.fst).Nodup := by
  rw [bump_keys]
  by_cases hm : k ∈ d.map Prod.fst
  · simpa [hm] using h
  · simp [hm, List.nodup_append, h, List.disjoint_singleton]

lemma nodup_queryCounts_aux (qs : List CapturedQuery) (acc : List (String × Nat))
    (h : (acc.map Prod.fst).Nodup) :
    (((qs.foldl countStep acc)).map Prod.fst).Nodup := by
  induction qs generalizing acc with
  | nil => simpa using h
  | cons q rest ih =>
    rw [List.foldl_cons]
    apply ih
    by_cases hex : queryType q.sql ∈ excludedTypes
    · simpa [countStep, hex] using h
    · simpa [countStep, hex] using nodup_bump_keys acc (queryType q.sql) h

lemma nodup_queryCounts (qs : List CapturedQuery) :
    ((queryCounts qs).map Prod.fst).Nodup :=
  nodup_queryCounts_aux qs [] (by simp)

lemma mem_of_dlookup_eq_some (d : List (String × Nat)) (k : String) (v : Nat)
    (h : dlookup d k = some v) : (k, v) ∈ d := by
  induction d with
  | nil => simp [dlookup] at h
  | cons p rest ih =>
    rw [dlookup] at h
    by_cases hp : p.1 = k
    · rw [if_pos hp] at h
      obtain ⟨a, b⟩ := p
      simp only at hp
      injection h with h
      subst hp
      subst h
      exact List.mem_cons_self _ _
    · rw [if_neg hp] at h
      exact List.mem_cons_of_mem _ (ih h)

lemma dlookup_of_mem_nodup (d : List (String × Nat)) (p : String × Nat)
    (hnd : (d.map Prod.fst).Nodup) (hp : p ∈ d) : dlookup d p.1 = some p.2 := by
  induction d with
  | nil => simp at hp
  | cons q rest ih =>
    rw [List.map_cons, List.nodup_cons] at hnd
    rcases List.mem_cons.mp hp with heq | hmem
    · subst heq
      simp [dlookup]
    · have hne : q.1 ≠ p.1 := by
        intro hh
        exact hnd.1 (hh ▸ List.mem_map_of_mem Prod.fst hmem)
      simp [dlookup, hne, ih hnd.2 hmem]

lemma dictEq_iff_dlookup (d1 d2 : List (String × Nat))
    (h1 : (d1.map Prod.fst).Nodup) (h2 : (d2.map Prod.fst).Nodup) :
    dictEq d1 d2 = true ↔ ∀ k, dlookup d1 k = dlookup d2 k := by
  rw [dictEq, Bool.and_eq_true, List.all_eq_true, List.all_eq_true]
  constructor
  · rintro ⟨ha, hb⟩ k
    cases hv : dlookup d1 k with
    | some v =>
      have hm := mem_of_dlookup_eq_some d1 k v hv
      have h2v := ha (k, v) hm
      simp only [beq_iff_eq] at h2v
      rw [h2v]
    | none =>
      cases hw : dlookup d2 k with
      | none => rfl
      | some w =>
        have hm := mem_of_dlookup_eq_some d2 k w hw
        have h1w := hb (k, w) hm
        simp only [beq_iff_eq] at h1w
        simp [h1w] at hv
  · intro h
    refine ⟨?_, ?_⟩
    · intro p hp
      have hl := dlookup_of_mem_nodup d1 p h1 hp
      rw [beq_iff_eq, ← h p.1]
      exact hl
    · intro p hp
      have hl := dlookup_of_mem_nodup d2 p h2 hp
      rw [beq_iff_eq, h p.1]
      exact hl

/-- C5: the assertion passes exactly when the histogram of captured statements
(each classified by its lower-cased leading keyword, with savepoint, release,
set and show excluded) equals the expected mapping — key for key, count for
count — and any mismatch fails with a message listing the expected and the
actual counts. -/
theorem c5_assert_num_queries (verbose : Nat) (expected : List (String × Nat))
    (captured : List CapturedQuery)
    (hnd : (expected.map Prod.fst).Nodup) :
    (assertNumQueries verbose expected captured = AssertResult.pass
      ↔ ∀ k, dlookup expected k
          = if countOfType captured k = 0 then none
            else some (countOfType captured k))
    ∧ (∀ m, assertNumQueries verbose expected captured = AssertResult.fail m →
        ∃ suffix, m = "Unexpected queries: expected " ++ reprDict expected
            ++ ", got " ++ reprDict (queryCounts captured) ++ suffix) := by
  have hiff := dictEq_iff_dlookup expected (queryCounts captured) hnd
    (nodup_queryCounts captured)
  constructor
  · rw [assertNumQueries]
    by_cases hde : dictEq expected (queryCounts captured) = true
    · rw [if_pos hde]
      constructor
      · intro _ k
        rw [hiff.mp hde k, dlookup_queryCounts]
      · intro _
        rfl
    · rw [if_neg hde]
      constructor
      · intro hcontra
        cases hcontra
      · intro hall
        exact absurd (hiff.mpr (fun k => by rw [hall k, dlookup_queryCounts])) hde
  · intro m hm
    rw [assertNumQueries] at hm
    by_cases hde : dictEq expected (queryCounts captured) = true
    · rw [if_pos hde] at hm
      cases hm
    · rw [if_neg hde] at hm
      injection hm with hm
      rw [← hm, mismatchMsg]
      by_cases hv : verbose > 0
      · exact ⟨"\n\nQueries:\n========\n\n"
            ++ String.join (captured.map (queryText verbose)), by
          simp [hv, String.append_assoc]⟩
      · exact ⟨" (add -v option to show queries, or -v -v to show queries with full stack trace)",
          by simp [hv]⟩

theorem c5_assert_num_queries_witness :
    ((([(("select" : String), 1)] : List (String × Nat)).map Prod.fst).Nodup)
    ∧ ((assertNumQueries 0 [("select", 1)] [⟨"SELECT 1", [], none⟩]
          = AssertResult.pass
        ↔ ∀ k, dlookup [("select", 1)] k
            = if countOfType [⟨"SELECT 1", [], none⟩] k = 0 then none
              else some (countOfType [⟨"SELECT 1", [], none⟩] k))
       ∧ (∀ m, assertNumQueries 0 [("select", 1)] [⟨"SELECT 1", [], none⟩]
            = AssertResult.fail m →
          ∃ suffix, m = "Unexpected queries: expected " ++ reprDict [("select", 1)]
              ++ ", got " ++ reprDict (queryCounts [⟨"SELECT 1", [], none⟩])
              ++ suffix)) :=
  ⟨by simp,
    c5_assert_num_queries 0 [("select", 1)] [⟨"SELECT 1", [], none⟩] (by simp)⟩

end PermaCapture
